import Mathlib

/-!
# Verification of the eWeLink WebSocket backend (`src/main.py`)

Shallow embedding of the connection registry (`ConnectionManager`), the
session dict, and the HTTP/WebSocket handlers `callback`, `logout`,
`trigger_get_data` and `websocket_endpoint`.  External collaborators (the
vendor token endpoint and device API reached through `requests`) are
embedded as oracle arguments carrying their outcome.
-/

/-- WebSocket connections, identified by an opaque id (object identity of
the Python `WebSocket`). -/
abbrev WebSocketConn := Nat

/-- JSON-ish payloads pushed over a websocket: parsed device data, or the
error dict `{'error': 'Failed to fetch data from eWeLink API', 'details': str(e)}`
built in `trigger_get_data`'s except-branch (its variable part `str(e)` is
carried as `details`). -/
inductive Payload where
  | deviceData (data : String)
  | errorDescriptor (details : String)
deriving DecidableEq

/-- `ConnectionManager.active_connections` is Python's insertion-ordered
`Dict[str, WebSocket]`, embedded as an association list; the dict
operations below keep its keys unique. -/
structure ConnectionManager where
  active_connections : List (String × WebSocketConn)
deriving DecidableEq

namespace ConnectionManager

/-- Dict lookup `d[t]` / `d.get(t)`: first entry with key `t`. -/
def dictGet : List (String × WebSocketConn) → String → Option WebSocketConn
  | [], _ => none
  | (k, v) :: rest, t => if k = t then some v else dictGet rest t

/-- Dict assignment `d[t] = c`: replace the value in place if the key is
present, append a new entry otherwise (Python dict semantics). -/
def dictSet : List (String × WebSocketConn) → String → WebSocketConn →
    List (String × WebSocketConn)
  | [], t, c => [(t, c)]
  | (k, v) :: rest, t, c =>
      if k = t then (t, c) :: rest else (k, v) :: dictSet rest t c

/-- Dict deletion `del d[t]`: remove the first entry with key `t`. -/
def dictDel : List (String × WebSocketConn) → String →
    List (String × WebSocketConn)
  | [], _ => []
  | (k, v) :: rest, t => if k = t then rest else (k, v) :: dictDel rest t

/-- Membership test `t in d`. -/
def dictContains (d : List (String × WebSocketConn)) (t : String) : Bool :=
  (dictGet d t).isSome

/-- `ConnectionManager.connect`: accepts the websocket and runs
`self.active_connections[token] = websocket`. -/
def connect (m : ConnectionManager) (websocket : WebSocketConn)
    (token : String) : ConnectionManager :=
  ⟨dictSet m.active_connections token websocket⟩

/-- `ConnectionManager.disconnect`: `if token in self.active_connections:
del self.active_connections[token]`. -/
def disconnect (m : ConnectionManager) (token : String) : ConnectionManager :=
  if dictContains m.active_connections token then
    ⟨dictDel m.active_connections token⟩
  else m

/-- `ConnectionManager.send_json_message`: if a connection is bound to
`token`, awaits `send_json(data)` on it (the delivery event is the second
component); otherwise nothing happens.  The method never mutates the dict,
so the manager is returned unchanged. -/
def send_json_message (m : ConnectionManager) (data : Payload)
    (token : String) : ConnectionManager × Option (WebSocketConn × Payload) :=
  match dictGet m.active_connections token with
  | some ws => (m, some (ws, data))
  | none => (m, none)

/-- The manager at process start: `self.active_connections = {}`. -/
def empty : ConnectionManager := ⟨[]⟩

end ConnectionManager

/-- Keys bound in the registry are pairwise distinct (the Python `dict`
representation invariant). -/
def keysNodup (m : ConnectionManager) : Prop :=
  (m.active_connections.map Prod.fst).Nodup

/-- Number of registry entries bound to identifier `t`. -/
def countKey (m : ConnectionManager) (t : String) : Nat :=
  m.active_connections.countP (fun p => p.1 == t)

/-- Registry operations, for stating invariants over arbitrary operation
sequences: `reg` is `ConnectionManager.connect`, `unreg` is
`ConnectionManager.disconnect`. -/
inductive RegistryOp where
  | reg (token : String) (websocket : WebSocketConn)
  | unreg (token : String)

/-- Apply one registry operation. -/
def applyOp (m : ConnectionManager) : RegistryOp → ConnectionManager
  | .reg t w => m.connect w t
  | .unreg t => m.disconnect t

/-- Apply a sequence of registry operations in order. -/
def applyOps (m : ConnectionManager) (ops : List RegistryOp) :
    ConnectionManager :=
  ops.foldl applyOp m

/-- The relevant keys of `request.session` (Starlette's session dict);
`none` embeds an absent key, and a key set to Python `None` is likewise
`none`. -/
structure Session where
  oauth_state : Option String
  access_token : Option String
  refresh_token : Option String
deriving DecidableEq

/-- Python truthiness of an optional string: `None` and `''` are falsy. -/
def pyTruthy : Option String → Bool
  | none => false
  | some s => !s.isEmpty

/-- Outcome of the `requests.post(token_url, ...)` exchange (external
collaborator): success carries `token_data.get('accessToken')` and
`token_data.get('refreshToken')` (each possibly absent), failure is a
`requests.exceptions.RequestException`. -/
inductive TokenExchange where
  | success (accessToken refreshToken : Option String)
  | failure (err : String)
deriving DecidableEq

/-- Result of one `/callback` request: HTTP status produced (FastAPI
redirects use 307), whether the token exchange was attempted, and the
session afterwards. -/
structure CallbackResult where
  status : Nat
  exchangeAttempted : Bool
  session : Session
deriving DecidableEq

/-- The `/callback` handler: rejects a falsy or mismatching `state` with
400, rejects a falsy `code` with 400, otherwise performs the token
exchange and on success stores the tokens in the session (500 on exchange
failure, session untouched). -/
def callback (session : Session) (code state : Option String)
    (exchange : TokenExchange) : CallbackResult :=
  if ¬ pyTruthy state ∨ state ≠ session.oauth_state then
    ⟨400, false, session⟩
  else if ¬ pyTruthy code then
    ⟨400, false, session⟩
  else
    match exchange with
    | .success tok refreshTok =>
        ⟨307, true,
          { session with access_token := tok, refresh_token := refreshTok }⟩
    | .failure _ => ⟨500, true, session⟩

/-- Outcome of the vendor `requests.get` device fetch (external
collaborator): parsed JSON device data, or a
`requests.exceptions.RequestException` raised by the request itself or by
`raise_for_status()` on a non-2xx response. -/
inductive FetchOutcome where
  | success (data : String)
  | failure (err : String)
deriving DecidableEq

/-- Result of one `/api/get-data` request: HTTP status, how many vendor
fetches were issued, the push delivery event (if any), and the registry
afterwards. -/
structure GetDataResult where
  status : Nat
  fetchCount : Nat
  pushed : Option (WebSocketConn × Payload)
  manager : ConnectionManager
deriving DecidableEq

/-- The `/api/get-data` handler (`trigger_get_data`): 401 when the session
token is falsy (no fetch, registry untouched); otherwise one fetch, whose
result (device data, or the error dict on failure) is routed through
`send_json_message` keyed by the access token; 200 on fetch success, 500
on fetch failure. -/
def trigger_get_data (session : Session) (m : ConnectionManager)
    (fetch : FetchOutcome) : GetDataResult :=
  match session.access_token with
  | none => ⟨401, 0, none, m⟩
  | some t =>
      if t.isEmpty then ⟨401, 0, none, m⟩
      else
        match fetch with
        | .success d =>
            let sent := m.send_json_message (.deviceData d) t
            ⟨200, 1, sent.2, sent.1⟩
        | .failure e =>
            let sent := m.send_json_message (.errorDescriptor e) t
            ⟨500, 1, sent.2, sent.1⟩

/-- Outcome of a `/ws` connection attempt. -/
inductive WsOutcome where
  | closed (code : Nat)
  | registered (key : String)
deriving DecidableEq

/-- The `/ws` endpoint (`websocket_endpoint`): a session without a truthy
`access_token` has the connection closed with code 1008; otherwise the
websocket is registered in the manager under the access token. -/
def websocket_endpoint (session : Session) (websocket : WebSocketConn)
    (m : ConnectionManager) : ConnectionManager × WsOutcome :=
  match session.access_token with
  | none => (m, .closed 1008)
  | some t =>
      if t.isEmpty then (m, .closed 1008)
      else (m.connect websocket t, .registered t)

/-- `request.session.clear()`. -/
def Session.clear (_session : Session) : Session := ⟨none, none, none⟩

/-- The `/logout` handler: clears the session and redirects to the
front-end URL; the connection manager is not touched. -/
def logout (session : Session) (m : ConnectionManager) :
    Session × ConnectionManager :=
  (session.clear, m)

/-! ## Dictionary lemmas -/

namespace ConnectionManager

theorem dictGet_dictSet_self (d : List (String × WebSocketConn)) (t : String)
    (c : WebSocketConn) : dictGet (dictSet d t c) t = some c := by
  induction d with
  | nil => simp [dictSet, dictGet]
  | cons p rest ih =>
      obtain ⟨k, v⟩ := p
      by_cases h : k = t
      · simp [dictSet, dictGet, h]
      · simp [dictSet, dictGet, h, ih]

theorem dictGet_dictSet_ne (d : List (String × WebSocketConn)) (t t' : String)
    (c : WebSocketConn) (h : t' ≠ t) :
    dictGet (dictSet d t c) t' = dictGet d t' := by
  induction d with
  | nil => simp [dictSet, dictGet, Ne.symm h]
  | cons p rest ih =>
      obtain ⟨k, v⟩ := p
      by_cases hk : k = t
      · subst hk
        simp [dictSet, dictGet, Ne.symm h]
      · simp [dictSet, dictGet, hk, ih]

theorem mem_keys_dictSet (d : List (String × WebSocketConn)) (t x : String)
    (c : WebSocketConn) :
    x ∈ (dictSet d t c).map Prod.fst → x ∈ d.map Prod.fst ∨ x = t := by
  induction d with
  | nil =>
      intro hx
      right
      simpa [dictSet] using hx
  | cons p rest ih =>
      obtain ⟨k, v⟩ := p
      intro hx
      by_cases hk : k = t
      · rw [show dictSet ((k, v) :: rest) t c = (t, c) :: rest from by
          simp [dictSet, hk]] at hx
        rw [List.map_cons, List.mem_cons] at hx
        rw [List.map_cons, List.mem_cons]
        rcases hx with hx | hx
        · exact Or.inr hx
        · exact Or.inl (Or.inr hx)
      · rw [show dictSet ((k, v) :: rest) t c = (k, v) :: dictSet rest t c from by
          simp [dictSet, hk]] at hx
        rw [List.map_cons, List.mem_cons] at hx
        rw [List.map_cons, List.mem_cons]
        rcases hx with hx | hx
        · exact Or.inl (Or.inl hx)
        · rcases ih hx with h2 | h2
          · exact Or.inl (Or.inr h2)
          · exact Or.inr h2

theorem keysNodup_dictSet (d : List (String × WebSocketConn)) (t : String)
    (c : WebSocketConn) (h : (d.map Prod.fst).Nodup) :
    ((dictSet d t c).map Prod.fst).Nodup := by
  induction d with
  | nil => simp [dictSet]
  | cons p rest ih =>
      obtain ⟨k, v⟩ := p
      rw [List.map_cons, List.nodup_cons] at h
      by_cases hk : k = t
      · rw [show dictSet ((k, v) :: rest) t c = (t, c) :: rest from by
          simp [dictSet, hk]]
        rw [List.map_cons, List.nodup_cons]
        subst hk
        exact h
      · rw [show dictSet ((k, v) :: rest) t c = (k, v) :: dictSet rest t c from by
          simp [dictSet, hk]]
        rw [List.map_cons, List.nodup_cons]
        refine ⟨fun hmem => ?_, ih h.2⟩
        rcases mem_keys_dictSet rest t (k, v).1 c hmem with h2 | h2
        · exact h.1 h2
        · exact hk h2

theorem dictDel_sublist (d : List (String × WebSocketConn)) (t : String) :
    (dictDel d t).Sublist d := by
  induction d with
  | nil => simp [dictDel]
  | cons p rest ih =>
      obtain ⟨k, v⟩ := p
      by_cases hk : k = t
      · rw [show dictDel ((k, v) :: rest) t = rest from by simp [dictDel, hk]]
        exact (List.Sublist.refl rest).cons _
      · rw [show dictDel ((k, v) :: rest) t = (k, v) :: dictDel rest t from by
          simp [dictDel, hk]]
        exact ih.cons₂ _

theorem dictGet_eq_none_of_not_mem (d : List (String × WebSocketConn))
    (t : String) (h : t ∉ d.map Prod.fst) : dictGet d t = none := by
  induction d with
  | nil => rfl
  | cons p rest ih =>
      obtain ⟨k, v⟩ := p
      simp only [List.map_cons, List.mem_cons, not_or] at h
      simp [dictGet, Ne.symm h.1, ih h.2]

theorem dictGet_dictDel_self (d : List (String × WebSocketConn)) (t : String)
    (h : (d.map Prod.fst).Nodup) : dictGet (dictDel d t) t = none := by
  induction d with
  | nil => rfl
  | cons p rest ih =>
      obtain ⟨k, v⟩ := p
      rw [List.map_cons, List.nodup_cons] at h
      by_cases hk : k = t
      · rw [show dictDel ((k, v) :: rest) t = rest from by simp [dictDel, hk]]
        subst hk
        exact dictGet_eq_none_of_not_mem rest k h.1
      · rw [show dictDel ((k, v) :: rest) t = (k, v) :: dictDel rest t from by
          simp [dictDel, hk]]
        simp [dictGet, hk, ih h.2]

theorem keysNodup_connect (m : ConnectionManager) (w : WebSocketConn)
    (t : String) (h : keysNodup m) : keysNodup (m.connect w t) :=
  keysNodup_dictSet m.active_connections t w h

theorem keysNodup_disconnect (m : ConnectionManager) (t : String)
    (h : keysNodup m) : keysNodup (m.disconnect t) := by
  unfold disconnect
  split
  · exact List.Nodup.sublist ((dictDel_sublist m.active_connections t).map Prod.fst) h
  · exact h

theorem dictGet_disconnect_self (m : ConnectionManager) (t : String)
    (h : keysNodup m) :
    dictGet (m.disconnect t).active_connections t = none := by
  unfold disconnect
  by_cases hc : dictContains m.active_connections t
  · simp only [hc, if_pos]
    exact dictGet_dictDel_self m.active_connections t h
  · simp only [hc]
    rw [if_neg (by simp [hc])]
    cases hg : dictGet m.active_connections t with
    | none => rfl
    | some c => simp [dictContains, hg] at hc

end ConnectionManager

theorem keysNodup_applyOp (m : ConnectionManager) (op : RegistryOp)
    (h : keysNodup m) : keysNodup (applyOp m op) := by
  cases op with
  | reg t w => exact ConnectionManager.keysNodup_connect m w t h
  | unreg t => exact ConnectionManager.keysNodup_disconnect m t h

theorem keysNodup_applyOps (ops : List RegistryOp) (m : ConnectionManager)
    (h : keysNodup m) : keysNodup (applyOps m ops) := by
  induction ops generalizing m with
  | nil => exact h
  | cons op rest ih => exact ih _ (keysNodup_applyOp m op h)

theorem countKey_le_one (m : ConnectionManager) (t : String)
    (h : keysNodup m) : countKey m t ≤ 1 := by
  unfold countKey
  have hc : m.active_connections.countP (fun p => p.1 == t)
      = (m.active_connections.map Prod.fst).count t := by
    rw [List.count, List.countP_map]
    rfl
  rw [hc]
  exact List.nodup_iff_count_le_one.mp h t

namespace ConnectionManager

theorem send_json_message_eq (m : ConnectionManager) (d : Payload)
    (t : String) :
    m.send_json_message d t
      = (m, (dictGet m.active_connections t).map (fun ws => (ws, d))) := by
  unfold send_json_message
  cases dictGet m.active_connections t <;> simp

theorem dictGet_connect_self (m : ConnectionManager) (w : WebSocketConn)
    (t : String) :
    dictGet (m.connect w t).active_connections t = some w :=
  dictGet_dictSet_self m.active_connections t w

theorem dictGet_connect_ne (m : ConnectionManager) (w : WebSocketConn)
    (t t' : String) (h : t' ≠ t) :
    dictGet (m.connect w t).active_connections t'
      = dictGet m.active_connections t' :=
  dictGet_dictSet_ne m.active_connections t t' w h

end ConnectionManager

/-! ## Claim theorems -/

/-- C1: for every sequence of Register (`connect`) and Unregister
(`disconnect`) operations on the registry, starting from the empty
registry of process start, each identifier is bound to at most one
connection — no sequence leaves two connections mapped to the same
identifier. -/
theorem registry_at_most_one_binding (ops : List RegistryOp) (t : String) :
    countKey (applyOps ConnectionManager.empty ops) t ≤ 1 :=
  countKey_le_one _ t
    (keysNodup_applyOps ops ConnectionManager.empty
      (by simp [keysNodup, ConnectionManager.empty]))

/-- C2: registering a new connection `c2` for an identifier `t` already
bound to `c1` replaces the binding: a subsequent `send_json_message` on
`t` delivers to `c2`, and (when `c1` was bound only at `t`) no
`send_json_message` through the registry can reach `c1` any more. -/
theorem register_replaces_binding (m : ConnectionManager) (t : String)
    (c1 c2 : WebSocketConn) (d : Payload)
    (hbound : ConnectionManager.dictGet m.active_connections t = some c1)
    (honly : ∀ t', t' ≠ t →
      ConnectionManager.dictGet m.active_connections t' ≠ some c1)
    (hne : c1 ≠ c2) :
    (m.connect c2 t).send_json_message d t
      = (m.connect c2 t, some (c2, d)) ∧
    ∀ t' d', ((m.connect c2 t).send_json_message d' t').2 ≠ some (c1, d') := by
  constructor
  · rw [ConnectionManager.send_json_message_eq,
      ConnectionManager.dictGet_connect_self]
    rfl
  · intro t' d' hcontra
    rw [ConnectionManager.send_json_message_eq] at hcontra
    simp only [Option.map_eq_some'] at hcontra
    obtain ⟨ws, hws, heq⟩ := hcontra
    have hws1 : ws = c1 := congrArg Prod.fst heq
    subst hws1
    by_cases ht' : t' = t
    · subst ht'
      rw [ConnectionManager.dictGet_connect_self] at hws
      exact hne (Option.some.inj hws).symm
    · rw [ConnectionManager.dictGet_connect_ne m c2 t t' ht'] at hws
      exact honly t' ht' hws

/-- C2 witness: in a registry binding "t0" to connection 1, registering
connection 2 under "t0" makes `send_json_message` deliver to 2. -/
theorem register_replaces_binding_witness :
    ((ConnectionManager.mk [("t0", 1)]).connect 2 "t0").send_json_message
        (Payload.deviceData "x") "t0"
      = ((ConnectionManager.mk [("t0", 1)]).connect 2 "t0",
          some (2, Payload.deviceData "x")) :=
  (register_replaces_binding ⟨[("t0", 1)]⟩ "t0" 1 2 (Payload.deviceData "x")
    (by decide)
    (fun t' ht' => by
      simp only [ConnectionManager.dictGet]
      rw [if_neg (fun he => ht' he.symm)]
      exact fun hcontra => Option.noConfusion hcontra)
    (by decide)).1

/-- C3: `send_json_message` on an identifier with no registered connection
is a silent no-op: it returns (total function, no exception), delivers
nothing, and leaves the registry unchanged. -/
theorem sendTo_unbound_silent_noop (m : ConnectionManager) (d : Payload)
    (t : String)
    (h : ConnectionManager.dictGet m.active_connections t = none) :
    m.send_json_message d t = (m, none) := by
  rw [ConnectionManager.send_json_message_eq, h]
  rfl

/-- C3 witness: sending to "x" in the empty registry delivers nothing and
leaves the registry empty. -/
theorem sendTo_unbound_silent_noop_witness :
    (ConnectionManager.mk []).send_json_message (Payload.deviceData "p") "x"
      = (ConnectionManager.mk [], none) :=
  sendTo_unbound_silent_noop ⟨[]⟩ (Payload.deviceData "p") "x" rfl

/-- C4 counterexample: with stored OAuth state "s0" and an absent `state`
parameter, `/callback` responds 400, not the claimed 403. -/
theorem callback_state_mismatch_returns_400_not_403 :
    (callback ⟨some "s0", none, none⟩ (some "c") none
        (TokenExchange.success (some "tok") none)).status = 400 ∧
    (callback ⟨some "s0", none, none⟩ (some "c") none
        (TokenExchange.success (some "tok") none)).status ≠ 403 := by
  decide

/-- C4 (amended): on an absent or mismatching `state` parameter,
`/callback` responds 400, attempts no token exchange, and leaves the
session unchanged (in particular no access token is stored). -/
theorem callback_state_mismatch_rejected (session : Session)
    (code state : Option String) (exchange : TokenExchange)
    (h : state = none ∨ state ≠ session.oauth_state) :
    (callback session code state exchange).status = 400 ∧
    (callback session code state exchange).exchangeAttempted = false ∧
    (callback session code state exchange).session = session := by
  have hguard : ¬ pyTruthy state ∨ state ≠ session.oauth_state := by
    rcases h with h | h
    · left
      rw [h]
      simp [pyTruthy]
    · right
      exact h
  unfold callback
  rw [if_pos hguard]
  exact ⟨rfl, rfl, rfl⟩

/-- C4 witness: concrete state-mismatch request through the amended
theorem. -/
theorem callback_state_mismatch_rejected_witness :
    (callback ⟨some "s0", none, none⟩ (some "c") none
        (TokenExchange.success (some "tok") none)).status = 400 ∧
    (callback ⟨some "s0", none, none⟩ (some "c") none
        (TokenExchange.success (some "tok") none)).exchangeAttempted = false ∧
    (callback ⟨some "s0", none, none⟩ (some "c") none
        (TokenExchange.success (some "tok") none)).session
      = ⟨some "s0", none, none⟩ :=
  callback_state_mismatch_rejected ⟨some "s0", none, none⟩ (some "c") none
    (TokenExchange.success (some "tok") none) (Or.inl rfl)

/-- C5 counterexample: an authenticated session with no registered push
recipient does not get 403 from `/api/get-data`; the fetch is attempted
and the handler returns 200 on fetch success. -/
theorem getData_no_recipient_returns_200 :
    (trigger_get_data ⟨none, some "tok123", none⟩ ⟨[]⟩
        (FetchOutcome.success "d")).status = 200 ∧
    (trigger_get_data ⟨none, some "tok123", none⟩ ⟨[]⟩
        (FetchOutcome.success "d")).status ≠ 403 ∧
    (trigger_get_data ⟨none, some "tok123", none⟩ ⟨[]⟩
        (FetchOutcome.success "d")).fetchCount = 1 := by
  decide

/-- C5 (amended): `/api/get-data` performs no recipient check: with an
authenticated session and no connection registered under its token it
still makes exactly one fetch, the push is silently dropped, the registry
is unchanged, and the status is never 403 (200 on fetch success, 500 on
failure). -/
theorem getData_no_recipient_fetches_and_drops (session : Session)
    (m : ConnectionManager) (fetch : FetchOutcome) (t : String)
    (htok : session.access_token = some t) (hne : t.isEmpty = false)
    (hnorec : ConnectionManager.dictGet m.active_connections t = none) :
    (trigger_get_data session m fetch).fetchCount = 1 ∧
    (trigger_get_data session m fetch).pushed = none ∧
    (trigger_get_data session m fetch).manager = m ∧
    (trigger_get_data session m fetch).status
      = (match fetch with
         | FetchOutcome.success _ => 200
         | FetchOutcome.failure _ => 500) ∧
    (trigger_get_data session m fetch).status ≠ 403 := by
  cases fetch with
  | success d =>
      have hr : trigger_get_data session m (FetchOutcome.success d)
          = ⟨200, 1, none, m⟩ := by
        simp [trigger_get_data, htok, hne,
          ConnectionManager.send_json_message_eq, hnorec]
      rw [hr]
      exact ⟨rfl, rfl, rfl, rfl, by simp⟩
  | failure e =>
      have hr : trigger_get_data session m (FetchOutcome.failure e)
          = ⟨500, 1, none, m⟩ := by
        simp [trigger_get_data, htok, hne,
          ConnectionManager.send_json_message_eq, hnorec]
      rw [hr]
      exact ⟨rfl, rfl, rfl, rfl, by simp⟩

/-- C5 witness: concrete authenticated, recipient-less request through the
amended theorem. -/
theorem getData_no_recipient_fetches_and_drops_witness :
    (trigger_get_data ⟨none, some "tok123", none⟩ ⟨[]⟩
        (FetchOutcome.success "d")).fetchCount = 1 ∧
    (trigger_get_data ⟨none, some "tok123", none⟩ ⟨[]⟩
        (FetchOutcome.success "d")).pushed = none ∧
    (trigger_get_data ⟨none, some "tok123", none⟩ ⟨[]⟩
        (FetchOutcome.success "d")).manager = ⟨[]⟩ ∧
    (trigger_get_data ⟨none, some "tok123", none⟩ ⟨[]⟩
        (FetchOutcome.success "d")).status = 200 ∧
    (trigger_get_data ⟨none, some "tok123", none⟩ ⟨[]⟩
        (FetchOutcome.success "d")).status ≠ 403 :=
  getData_no_recipient_fetches_and_drops ⟨none, some "tok123", none⟩ ⟨[]⟩
    (FetchOutcome.success "d") "tok123" rfl rfl rfl

/-- C6: `/api/get-data` on a session without an access token responds 401,
issues no vendor fetch, pushes nothing, and leaves the registry
untouched. -/
theorem getData_unauthenticated_401 (session : Session)
    (m : ConnectionManager) (fetch : FetchOutcome)
    (h : session.access_token = none) :
    trigger_get_data session m fetch = ⟨401, 0, none, m⟩ := by
  simp [trigger_get_data, h]

/-- C6 witness: concrete unauthenticated request. -/
theorem getData_unauthenticated_401_witness :
    trigger_get_data ⟨none, none, none⟩ ⟨[]⟩ (FetchOutcome.success "d")
      = ⟨401, 0, none, ⟨[]⟩⟩ :=
  getData_unauthenticated_401 ⟨none, none, none⟩ ⟨[]⟩
    (FetchOutcome.success "d") rfl

/-- C7: when the vendor fetch fails on an authenticated session whose
token has a registered connection, exactly one fetch is made, the error
descriptor is pushed to that connection, and the HTTP response carries a
5xx status. -/
theorem getData_fetch_failure_pushes_error (session : Session)
    (m : ConnectionManager) (e : String) (t : String) (c : WebSocketConn)
    (htok : session.access_token = some t) (hne : t.isEmpty = false)
    (hrec : ConnectionManager.dictGet m.active_connections t = some c) :
    (trigger_get_data session m (FetchOutcome.failure e)).fetchCount = 1 ∧
    (trigger_get_data session m (FetchOutcome.failure e)).pushed
      = some (c, Payload.errorDescriptor e) ∧
    500 ≤ (trigger_get_data session m (FetchOutcome.failure e)).status ∧
    (trigger_get_data session m (FetchOutcome.failure e)).status < 600 := by
  have hr : trigger_get_data session m (FetchOutcome.failure e)
      = ⟨500, 1, some (c, Payload.errorDescriptor e), m⟩ := by
    simp [trigger_get_data, htok, hne,
      ConnectionManager.send_json_message_eq, hrec]
  rw [hr]
  exact ⟨rfl, rfl, by simp, by simp⟩

/-- C7 witness: concrete failed fetch with a registered recipient. -/
theorem getData_fetch_failure_pushes_error_witness :
    (trigger_get_data ⟨none, some "tok", none⟩ ⟨[("tok", 5)]⟩
        (FetchOutcome.failure "boom")).fetchCount = 1 ∧
    (trigger_get_data ⟨none, some "tok", none⟩ ⟨[("tok", 5)]⟩
        (FetchOutcome.failure "boom")).pushed
      = some (5, Payload.errorDescriptor "boom") ∧
    500 ≤ (trigger_get_data ⟨none, some "tok", none⟩ ⟨[("tok", 5)]⟩
        (FetchOutcome.failure "boom")).status ∧
    (trigger_get_data ⟨none, some "tok", none⟩ ⟨[("tok", 5)]⟩
        (FetchOutcome.failure "boom")).status < 600 :=
  getData_fetch_failure_pushes_error ⟨none, some "tok", none⟩ ⟨[("tok", 5)]⟩
    "boom" "tok" 5 rfl rfl (by decide)

/-- C8 counterexample: on `/ws` connect with access token "tok123", the
connection is registered under the key "tok123" itself — the registry key
equals the OAuth access token, and no distinct identifier is minted. -/
theorem ws_registry_key_equals_access_token :
    (websocket_endpoint ⟨none, some "tok123", none⟩ 7 ⟨[]⟩).2
      = WsOutcome.registered "tok123" ∧
    (websocket_endpoint ⟨none, some "tok123", none⟩ 7 ⟨[]⟩).1
      = ⟨[("tok123", 7)]⟩ := by
  decide

/-- C8 (amended): on `/ws` connect with an authenticated session, the
connection is registered directly under the session's OAuth access token —
no separate per-session identifier exists or is minted — and it becomes
reachable under that token. -/
theorem ws_registers_under_access_token (session : Session)
    (w : WebSocketConn) (m : ConnectionManager) (t : String)
    (htok : session.access_token = some t) (hne : t.isEmpty = false) :
    websocket_endpoint session w m = (m.connect w t, WsOutcome.registered t) ∧
    ConnectionManager.dictGet
        (websocket_endpoint session w m).1.active_connections t = some w := by
  have h1 : websocket_endpoint session w m
      = (m.connect w t, WsOutcome.registered t) := by
    simp [websocket_endpoint, htok, hne]
  refine ⟨h1, ?_⟩
  rw [h1]
  exact ConnectionManager.dictGet_connect_self m w t

/-- C8 witness: concrete authenticated connect through the amended
theorem. -/
theorem ws_registers_under_access_token_witness :
    websocket_endpoint ⟨none, some "tok123", none⟩ 7 ⟨[]⟩
      = ((ConnectionManager.mk []).connect 7 "tok123",
          WsOutcome.registered "tok123") ∧
    ConnectionManager.dictGet
        (websocket_endpoint ⟨none, some "tok123", none⟩ 7
          ⟨[]⟩).1.active_connections "tok123" = some 7 :=
  ws_registers_under_access_token ⟨none, some "tok123", none⟩ 7 ⟨[]⟩
    "tok123" rfl rfl

/-- C9: connecting `w1` then `w2` under the same token and then running
`disconnect` on that token leaves the token with no binding — `disconnect`
is keyed only by the token and never checks which websocket the entry
holds, so a disconnect raised by the superseded `w1` also removes the
replacing `w2`. -/
theorem reconnect_then_disconnect_unbinds (m : ConnectionManager)
    (t : String) (w1 w2 : WebSocketConn) (hnodup : keysNodup m)
    (_hne : w1 ≠ w2) :
    ConnectionManager.dictGet
        (((m.connect w1 t).connect w2 t).disconnect t).active_connections t
      = none :=
  ConnectionManager.dictGet_disconnect_self _ t
    (ConnectionManager.keysNodup_connect _ w2 t
      (ConnectionManager.keysNodup_connect m w1 t hnodup))

/-- C9 witness: connections 1 then 2 under "tok", then disconnect, in the
empty registry. -/
theorem reconnect_then_disconnect_unbinds_witness :
    ConnectionManager.dictGet
        ((((ConnectionManager.mk []).connect 1 "tok").connect 2
          "tok").disconnect "tok").active_connections "tok" = none :=
  reconnect_then_disconnect_unbinds ⟨[]⟩ "tok" 1 2 (by simp [keysNodup])
    (by decide)

/-- C10: `/logout` clears only the session: the registry binding for the
session's token is unchanged, and `send_json_message` on that token still
delivers to the same connection afterwards. -/
theorem logout_preserves_registry (session : Session)
    (m : ConnectionManager) (t : String) (c : WebSocketConn) (d : Payload)
    (h : ConnectionManager.dictGet m.active_connections t = some c) :
    (logout session m).2 = m ∧
    (logout session m).1.access_token = none ∧
    (logout session m).2.send_json_message d t = (m, some (c, d)) := by
  refine ⟨rfl, rfl, ?_⟩
  show m.send_json_message d t = (m, some (c, d))
  rw [ConnectionManager.send_json_message_eq, h]
  rfl

/-- C10 witness: logout on a session whose token "tok" is bound to
connection 5. -/
theorem logout_preserves_registry_witness :
    (logout ⟨none, some "tok", none⟩ ⟨[("tok", 5)]⟩).2
      = ⟨[("tok", 5)]⟩ ∧
    (logout ⟨none, some "tok", none⟩ ⟨[("tok", 5)]⟩).1.access_token = none ∧
    (logout ⟨none, some "tok", none⟩
        ⟨[("tok", 5)]⟩).2.send_json_message (Payload.deviceData "x") "tok"
      = (⟨[("tok", 5)]⟩, some (5, Payload.deviceData "x")) :=
  logout_preserves_registry ⟨none, some "tok", none⟩ ⟨[("tok", 5)]⟩ "tok" 5
    (Payload.deviceData "x") (by decide)
